import Mathlib

/-
  Verification development for the Yamaha SCP control module
  (companion-module-yamaha-scp, src/index.js).

  The module's core is embedded shallowly: JavaScript runtime values are
  modelled by the inductive `JSVal` (the integers, strings, booleans,
  `undefined` and `NaN` that actually flow through the module), JS objects
  that are built dynamically from token lists are modelled as functions
  from property names to `JSVal`, and methods that mutate state or can
  raise a TypeError are modelled as pure functions returning updated
  state in `Except Unit`.
-/

set_option maxRecDepth 4000

namespace Scp



/-- JavaScript values as they occur in the module: numbers are integers on
the wire and in all option schemas, so they are modelled as `Int` with a
separate `NaN`; `undefined` is explicit; there is no `null` anywhere in
the data flow of src/index.js. -/
inductive JSVal where
  | undef
  | nan
  | num (n : Int)
  | str (s : String)
  | boolean (b : Bool)
  deriving DecidableEq, Repr

/-- The JavaScript whitespace class used by `\s`, `String.prototype.trim`
and `Number()` conversion, restricted to the ASCII characters that can
occur in SCP lines. -/
def isWsChar (c : Char) : Bool :=
  c == ' ' || c == '\t' || c == '\n' || c == '\r' || c == '\x0b' || c == '\x0c'

/-- Left part of `String.prototype.trim` on the character list. -/
def trimLeftL (l : List Char) : List Char :=
  l.dropWhile isWsChar

/-- Right part of `String.prototype.trim` on the character list. -/
def trimRightL (l : List Char) : List Char :=
  (l.reverse.dropWhile isWsChar).reverse

/-- JS `String.prototype.trim`. -/
def jsTrim (s : String) : String :=
  String.mk (trimRightL (trimLeftL s.data))

/-- Decimal value of a digit list (used by the number conversions). -/
def digitsFold (l : List Char) : Nat :=
  l.foldl (fun a c => a * 10 + (c.toNat - 48)) 0

/-- JS `Number(string)` restricted to the integral numerals that occur on
the SCP wire: trimmed empty string is `0`, an optionally signed run of
digits is its value, anything else is `NaN`. -/
def strToNumber (s : String) : JSVal :=
  match trimRightL (trimLeftL s.data) with
  | [] => .num 0
  | '-' :: ds => if ds ≠ [] && ds.all Char.isDigit then .num (-(digitsFold ds : Int)) else .nan
  | '+' :: ds => if ds ≠ [] && ds.all Char.isDigit then .num (digitsFold ds) else .nan
  | ds => if ds.all Char.isDigit then .num (digitsFold ds) else .nan

/-- JS `String()` conversion as used in template literals and property keys. -/
def jsToString : JSVal → String
  | JSVal.undef => "undefined"
  | .nan => "NaN"
  | .num n => toString n
  | .str s => s
  | .boolean b => if b then "true" else "false"

/-- JS `ToNumber` coercion. -/
def jsToNumberV : JSVal → JSVal
  | JSVal.undef => .nan
  | .nan => .nan
  | .num n => .num n
  | .str s => strToNumber s
  | .boolean b => .num (if b then 1 else 0)

/-- JS loose equality `==` on the values of the model (no `null`, so
`undefined` is loosely equal only to itself; `NaN` is equal to nothing;
mixed comparisons go through `ToNumber` as in the spec of `==`). -/
def jsLooseEq : JSVal → JSVal → Bool
  | JSVal.undef, JSVal.undef => true
  | JSVal.undef, _ => false
  | _, JSVal.undef => false
  | .str a, .str b => a == b
  | a, b =>
    match jsToNumberV a, jsToNumberV b with
    | .num x, .num y => x == y
    | _, _ => false

/-- JS relational `v > k` for an integer literal `k` (NaN and undefined
compare false). -/
def jsGtNum (v : JSVal) (k : Int) : Bool :=
  match jsToNumberV v with
  | .num n => k < n
  | _ => false

/-- JS `v - k` for an integer literal `k` (also models `v--`). -/
def jsSubNum (v : JSVal) (k : Int) : JSVal :=
  match jsToNumberV v with
  | .num n => .num (n - k)
  | _ => .nan

/-- JS unary minus. -/
def jsNegV (v : JSVal) : JSVal :=
  match jsToNumberV v with
  | .num n => .num (-n)
  | _ => .nan

/-- JS `0 + v`, the coercion idiom used by src/index.js to turn booleans
into `1`/`0` (string operands concatenate, as `+` does in JS). -/
def jsAdd0 : JSVal → JSVal
  | .num n => .num n
  | .nan => .nan
  | .boolean b => .num (if b then 1 else 0)
  | .str s => .str ("0" ++ s)
  | JSVal.undef => .nan

/-- JS `v + k` for an integer literal `k`, applied only to `parseInt`
results (a number or `NaN`). -/
def jsAddInt (v : JSVal) (k : Int) : JSVal :=
  match v with
  | .num n => .num (n + k)
  | _ => .nan

/-- JS `parseInt(v)`: stringify, skip leading whitespace, read an optional
sign and a maximal run of leading digits; `NaN` when there is none. -/
def jsParseInt (v : JSVal) : JSVal :=
  match trimLeftL (jsToString v).data with
  | '-' :: ds =>
    match ds.takeWhile Char.isDigit with
    | [] => .nan
    | digs => .num (-(digitsFold digs : Int))
  | '+' :: ds =>
    match ds.takeWhile Char.isDigit with
    | [] => .nan
    | digs => .num (digitsFold digs)
  | ds =>
    match ds.takeWhile Char.isDigit with
    | [] => .nan
    | digs => .num (digitsFold digs)

/-- JS string concatenation `s + v` with a value coerced to string. -/
def jsConcat (s : String) (v : JSVal) : String :=
  s ++ jsToString v

/-- Helper for `String.prototype.indexOf`. -/
def idxOfAux (sub : List Char) : List Char → Nat → Option Nat
  | [], i => if sub.isPrefixOf ([] : List Char) then some i else none
  | l@(_ :: t), i => if sub.isPrefixOf l then some i else idxOfAux sub t (i + 1)

/-- JS `s.indexOf(sub)` (first index, `-1` when absent). -/
def jsIndexOfStr (s sub : String) : Int :=
  match idxOfAux sub.data s.data 0 with
  | some i => i
  | none => -1

/-- Helper for `String.prototype.lastIndexOf`. -/
def lastIdxAux (sub : List Char) : List Char → Nat → Option Nat → Option Nat
  | [], i, best => if sub.isPrefixOf ([] : List Char) then some i else best
  | l@(_ :: t), i, best => lastIdxAux sub t (i + 1) (if sub.isPrefixOf l then some i else best)

/-- JS `s.lastIndexOf(sub)` (last index, `-1` when absent). -/
def jsLastIndexOfStr (s sub : String) : Int :=
  match lastIdxAux sub.data s.data 0 none with
  | some i => i
  | none => -1

/-- JS `s.slice(start)` with negative indices counting from the end. -/
def jsSliceFrom (s : String) (start : Int) : String :=
  let len : Int := s.data.length
  let st := if start < 0 then max (len + start) 0 else min start len
  String.mk (s.data.drop st.toNat)

/-- JS `s.slice(start, stop)` with negative indices counting from the end. -/
def jsSlice2 (s : String) (start stop : Int) : String :=
  let len : Int := s.data.length
  let st := if start < 0 then max (len + start) 0 else min start len
  let en := if stop < 0 then max (len + stop) 0 else min stop len
  String.mk ((s.data.take en.toNat).drop st.toNat)

/-- Find the closing double quote: returns the characters before it and
the rest after it. -/
def closeQuote : List Char → Option (List Char × List Char)
  | [] => none
  | '"' :: t => some ([], t)
  | c :: t =>
    match closeQuote t with
    | some (a, b) => some (c :: a, b)
    | none => none

/-- One step machine for the tokenizing regex
`/(?:[^\s"]+|"[^"]*")+/g` of `parseData`: a token is a maximal run of
units, a unit being a run of non-space non-quote characters or a
quote-delimited group; an unclosed quote ends the current token and is
skipped, exactly as the backtracking regex does. Fuel is the input
length, and each step consumes at least one character. -/
def tokGo : Nat → List Char → List Char → List String → List String
  | 0, _, cur, acc => if cur.isEmpty then acc else acc ++ [String.mk cur]
  | _ + 1, [], cur, acc => if cur.isEmpty then acc else acc ++ [String.mk cur]
  | fuel + 1, c :: rest, cur, acc =>
    if isWsChar c then
      tokGo fuel rest [] (if cur.isEmpty then acc else acc ++ [String.mk cur])
    else if c == '"' then
      match closeQuote rest with
      | some (inside, rest2) => tokGo fuel rest2 (cur ++ '"' :: (inside ++ ['"'])) acc
      | none => tokGo fuel rest [] (if cur.isEmpty then acc else acc ++ [String.mk cur])
    else
      tokGo fuel rest (cur ++ [c]) acc

/-- JS `line.match(/(?:[^\s"]+|"[^"]*")+/g)`: the token list, or `none`
for the `null` result when the line holds no token. -/
def jsMatchTokens (s : String) : Option (List String) :=
  match tokGo (s.data.length + 1) s.data [] [] with
  | [] => none
  | toks => some toks

/-- JS `s.split(sep)` for a single-character separator (structurally
recursive so that concrete runs reduce in the kernel). -/
def splitOnCharGo (sep : Char) : List Char → List Char → List String
  | [], cur => [String.mk cur.reverse]
  | c :: t, cur =>
    if c = sep then String.mk cur.reverse :: splitOnCharGo sep t []
    else splitOnCharGo sep t (c :: cur)

/-- JS `s.split(sep)` for a single-character separator. -/
def splitOnChar (sep : Char) (s : String) : List String :=
  splitOnCharGo sep s.data []

/-- JS `s.toUpperCase()` on the ASCII tokens of the protocol. -/
def upperStr (s : String) : String :=
  String.mk (s.data.map Char.toUpper)

/-- JS `s.startsWith(p)`. -/
def jsStartsWith (s p : String) : Bool :=
  p.data.isPrefixOf s.data

/-- JS `s.endsWith(p)`. -/
def jsEndsWith (s p : String) : Bool :=
  p.data.isSuffixOf s.data

instance {ε α : Type} [DecidableEq ε] [DecidableEq α] : DecidableEq (Except ε α) := fun x y =>
  match x, y with
  | .error a, .error b =>
    if h : a = b then .isTrue (by rw [h]) else .isFalse (fun hc => h (Except.error.inj hc))
  | .ok a, .ok b =>
    if h : a = b then .isTrue (by rw [h]) else .isFalse (fun hc => h (Except.ok.inj hc))
  | .error _, .ok _ => .isFalse (fun hc => Except.noConfusion hc)
  | .ok _, .error _ => .isFalse (fun hc => Except.noConfusion hc)

/-- The dictionary-schema token names (`SCP_PARAMS` of src/index.js). -/
def SCP_PARAMS : List String :=
  ["Ok", "Command", "Index", "Address", "X", "Y", "Min", "Max", "Default",
   "Unit", "Type", "UI", "RW", "Scale"]

/-- The value-schema token names (`SCP_VALS` of src/index.js). -/
def SCP_VALS : List String :=
  ["Status", "Command", "Address", "X", "Y", "Val", "TxtVal"]

/-- The two schemas `parseData` is invoked with; the reference comparison
`params === SCP_PARAMS` in the source distinguishes exactly these. -/
inductive Schema where
  | params
  | vals
  deriving DecidableEq, Repr

/-- The token-name list of a schema. -/
def Schema.plist : Schema → List String
  | .params => SCP_PARAMS
  | .vals => SCP_VALS

/-- A dynamically-built JS object, as a map from property name to value:
absent properties read as `undefined`. -/
abbrev ScpObj := String → JSVal

/-- The quote stripping `line[j].replace(/"/g,'')` of `parseData`. -/
def stripQuotes (t : String) : String :=
  String.mk (t.data.filter (fun c => c ≠ '"'))

/-- The object built by the `scpCommand[params[j]] = line[j].replace(...)`
loop of `parseData`: property `key` holds the stripped token at the
position of `key` in the schema, `undefined` when the line is shorter. -/
def mkObj (schema : Schema) (toks : List String) : ScpObj := fun key =>
  match (schema.plist).findIdx? (fun p => p == key) with
  | some j =>
    match toks.get? j with
    | some t => .str (stripQuotes t)
    | none => JSVal.undef
  | none => JSVal.undef

/-- JS property assignment on an object of the model. -/
def objSet (o : ScpObj) (k : String) (v : JSVal) : ScpObj :=
  fun q => if q = k then v else o q

/-- The two classification lists `this.nameCommands` / `this.colorCommands`
that `parseData` appends to while loading the dictionary. -/
structure ParseState where
  nameCommands : List String
  colorCommands : List String
  deriving DecidableEq, Repr

/-- The `switch (scpCommand.Address.slice(-4))` classification of
`parseData` (lines 167-177): `Name` suffixes go to `nameCommands`, `olor`
suffixes to `colorCommands`. Calling `.slice` on a missing `Address`
raises a TypeError, modelled as `Except.error`. -/
def classifyCmd (st : ParseState) (obj : ScpObj) : Except Unit ParseState :=
  match obj "Address" with
  | .str a =>
    let tail := jsSliceFrom a (-4)
    if tail == "Name" then
      .ok { st with nameCommands := st.nameCommands ++ [jsConcat "scp_" (obj "Index")] }
    else if tail == "olor" then
      .ok { st with colorCommands := st.colorCommands ++ [jsConcat "scp_" (obj "Index")] }
    else
      .ok st
  | _ => .error ()

/-- The per-line loop of `parseData` (src/index.js lines 153-179). A
thrown TypeError (the `line[1].toUpperCase()` access on a line with a
single token, or the classification on a record with no `Address` slot)
aborts the whole loop; mutations of the classification lists made before
the throw survive, which the returned `ParseState` reflects. -/
def parseDataGo (schema : Schema) :
    List String → List ScpObj → ParseState → (Except Unit (List ScpObj)) × ParseState
  | [], cmds, st => (.ok cmds, st)
  | l :: rest, cmds, st =>
    match jsMatchTokens l with
    | none => parseDataGo schema rest cmds st
    | some toks =>
      let t0 := toks.headD ""
      if upperStr t0 == "OK" || upperStr t0 == "NOTIFY" then
        let obj := mkObj schema toks
        match toks.get? 1 with
        | none => (.error (), st)
        | some t1 =>
          let cmds2 :=
            if upperStr t1 == "GET" || upperStr t1 == "SSCURRENT_EX" then cmds
            else cmds ++ [obj]
          if schema = .params then
            match classifyCmd st obj with
            | .ok st2 => parseDataGo schema rest cmds2 st2
            | .error _ => (.error (), st)
          else
            parseDataGo schema rest cmds2 st
      else
        parseDataGo schema rest cmds st

/-- `parseData` of src/index.js: split the raw data on line feeds and run
the record loop. Returns the record list (or the propagated TypeError)
together with the classification state. -/
def parseData (schema : Schema) (data : String) (st : ParseState) :
    (Except Unit (List ScpObj)) × ParseState :=
  parseDataGo schema (splitOnChar '\x0A' data) [] st

/-- The module configuration: the chosen console model and the remaining
web-config fields (`myCh1` .. `myCh4` and the rest), read dynamically as
`this.config[key]`. -/
structure Config where
  model : String
  fields : String → JSVal

/-- One entry of a dropdown choice list. -/
structure Choice where
  id : JSVal
  label : JSVal
  deriving DecidableEq, Repr

/-- A foreground/background color pair, the shape of the entries of the
`chColorRGB` palette table. -/
structure ColorPair where
  color : JSVal
  bgcolor : JSVal
  deriving DecidableEq, Repr

/-- Modelled from the spec: the curated dropdown tables of
`scpNames.json` (channel-bank names, color palettes, icon set, output
patch tables) and the palette table `chColorRGB` are loaded from a JSON
file that is not part of src/, so their contents are opaque parameters
here; the palette is the total table mapping a cached raw value to a
displayable color pair (spec 4.2 and 4.4). -/
structure ScpNames where
  chNames : List Choice
  customChNames : List Choice
  chColors : List Choice
  chColorsTF : List Choice
  chIcons : List Choice
  danteOutPatch : List Choice
  omniOutPatch : List Choice
  chColorRGB : String → ColorPair

/-- One option record of an action/feedback schema, with the union of the
property names used by `createAction` and `actions`; properties a given
option does not carry read as `undefined` (resp. `none` for `choices`). -/
structure ActionOption where
  type : String
  label : JSVal := JSVal.undef
  id : String
  default : JSVal := JSVal.undef
  min : JSVal := JSVal.undef
  max : JSVal := JSVal.undef
  minChoicesForSearch : JSVal := JSVal.undef
  required : JSVal := JSVal.undef
  range : JSVal := JSVal.undef
  regex : JSVal := JSVal.undef
  choices : Option (List Choice) := none
  deriving DecidableEq, Repr

/-- An action (or feedback) descriptor: the `{label, options}` objects
built by `createAction`; the two synthetic macro actions carry no
`options` property at all, hence the `Option`. -/
structure Action where
  label : String
  options : Option (List ActionOption) := none
  deriving DecidableEq, Repr

/-- `scpLabels[i]`: array indexing that reads `undefined` out of range. -/
def lblAt (ls : List String) (i : Int) : JSVal :=
  if i < 0 then JSVal.undef
  else
    match ls.get? i.toNat with
    | some s => .str s
    | none => JSVal.undef

/-- `createAction` of src/index.js (lines 269-354): build the option
schema of one action from a Command Descriptor object. The only JS
statement that can throw here is `scpCmd.Address.slice(...)` when the
record has no usable `Address`, hence the `Except`. -/
def createAction (cfg : Config) (names : ScpNames) (scpCmd : ScpObj) : Except Unit Action := do
  let scpLabel ←
    if cfg.model == "TF" && jsLooseEq (scpCmd "Type") (.str "scene") then
      pure "Scene/Bank"
    else
      match scpCmd "Address" with
      | .str a => pure (jsSliceFrom a (jsIndexOfStr a "/" + 1))
      | _ => .error ()
  let scpLabels := splitOnChar '/' scpLabel
  let idx0 : Int := if jsStartsWith scpLabel "Cue" then 1 else 0
  let (opts1, idx1) :=
    if jsGtNum (scpCmd "X") 1 then
      (if jsStartsWith scpLabel "InCh" || jsStartsWith scpLabel "Cue/InCh" then
        [{ type := "dropdown", label := lblAt scpLabels idx0, id := "X", default := .num 1,
           minChoicesForSearch := .num 0, choices := some names.chNames : ActionOption }]
      else
        [{ type := "number", label := lblAt scpLabels idx0, id := "X", min := .num 1,
           max := scpCmd "X", default := .num 1, required := .boolean true,
           range := .boolean false : ActionOption }],
       idx0 + 1)
    else
      ([], idx0)
  let (opts2, idx2) :=
    if jsGtNum (scpCmd "Y") 1 then
      (if cfg.model == "TF" && jsLooseEq (scpCmd "Type") (.str "scene") then
        opts1 ++ [{ type := "dropdown", label := lblAt scpLabels idx1, id := "Y",
                    default := .str "a",
                    choices := some [⟨.str "a", .str "A"⟩, ⟨.str "b", .str "B"⟩] : ActionOption }]
      else
        opts1 ++ [{ type := "number", label := lblAt scpLabels idx1, id := "Y", min := .num 1,
                    max := scpCmd "Y", default := .num 1, required := .boolean true,
                    range := .boolean false : ActionOption }],
       idx1)
    else
      (opts1, idx1)
  let idx3 : Int := if idx2 < (scpLabels.length : Int) - 1 then idx2 + 1 else idx2
  if scpCmd "Type" == JSVal.str "integer" then
    let valParams : ActionOption :=
      if jsLooseEq (scpCmd "Max") (.num 1) then
        { type := "checkbox", label := .str "On", id := "Val",
          default := .boolean (jsLooseEq (scpCmd "Default") (.num 1)) }
      else
        { type := "number", label := lblAt scpLabels idx3, id := "Val", min := scpCmd "Min",
          max := scpCmd "Max", default := jsParseInt (scpCmd "Default"),
          required := .boolean true, range := .boolean false }
    pure { label := scpLabel, options := some (opts2 ++ [valParams]) }
  else if scpCmd "Type" == JSVal.str "string" || scpCmd "Type" == JSVal.str "binary" then
    let valParams : ActionOption :=
      if jsStartsWith scpLabel "CustomFaderBank" then
        { type := "dropdown", label := lblAt scpLabels idx3, id := "Val",
          default := scpCmd "Default", minChoicesForSearch := .num 0,
          choices := some names.customChNames }
      else if jsEndsWith scpLabel "Color" then
        { type := "dropdown", label := lblAt scpLabels idx3, id := "Val",
          default := scpCmd "Default", minChoicesForSearch := .num 0,
          choices := some (if cfg.model == "TF" then names.chColorsTF else names.chColors) }
      else if jsEndsWith scpLabel "Icon" then
        { type := "dropdown", label := lblAt scpLabels idx3, id := "Val",
          default := scpCmd "Default", minChoicesForSearch := .num 0,
          choices := some names.chIcons }
      else if scpLabel == "DanteOutPort/Patch" then
        { type := "dropdown", label := lblAt scpLabels idx3, id := "Val",
          default := scpCmd "Default", minChoicesForSearch := .num 0,
          choices := some names.danteOutPatch }
      else if scpLabel == "OmniOutPort/Patch" then
        { type := "dropdown", label := lblAt scpLabels idx3, id := "Val",
          default := scpCmd "Default", minChoicesForSearch := .num 0,
          choices := some names.omniOutPatch }
      else
        { type := "textinput", label := lblAt scpLabels idx3, id := "Val",
          default := scpCmd "Default", regex := .str "" }
    pure { label := scpLabel, options := some (opts2 ++ [valParams]) }
  else
    pure { label := scpLabel, options := some opts2 }

/-- JS object assignment `m[k] = v` on a string-keyed map, replacing in
place or appending, as property order does. -/
def setA {α : Type} : List (String × α) → String → α → List (String × α)
  | [], k, v => [(k, v)]
  | (k2, v2) :: t, k, v => if k2 == k then (k, v) :: t else (k2, v2) :: setA t k v

/-- JS property read `m[k]` on a string-keyed map (`none` is `undefined`). -/
def getA {α : Type} : List (String × α) → String → Option α
  | [], _ => none
  | (k2, v2) :: t, k => if k2 == k then some v2 else getA t k

/-- Modelled from the spec: the host runtime's `this.rgb(r,g,b)` color
helper (the host registry collaborator), a packed 24-bit color number. -/
def rgb (r g b : Int) : JSVal :=
  .num (r * 65536 + g * 256 + b)

/-- `actions` of src/index.js (lines 358-399): build the command and
feedback catalogs. The feedback schema is the JSON-round-trip clone of
the action schema (identity on this plain data), with the value option
popped for name/color commands and color pickers appended otherwise, and
the two synthetic macro entries added at the end. -/
def actions (cfg : Config) (names : ScpNames) (scpCommands : List ScpObj)
    (nameCommands colorCommands : List String) :
    Except Unit (List (String × Action) × List (String × Action)) := do
  let (commands, feedbacks) ← scpCommands.foldlM
    (fun (acc : List (String × Action) × List (String × Action)) command => do
      let scpAction := jsConcat "scp_" (command "Index")
      let act ← createAction cfg names command
      let fb : Action :=
        if nameCommands.contains scpAction || colorCommands.contains scpAction then
          { act with options := act.options.map List.dropLast }
        else
          { act with options := act.options.map (fun os => os ++
              [{ type := "colorpicker", label := .str "Color", id := "fg",
                 default := rgb 0 0 0 : ActionOption },
               { type := "colorpicker", label := .str "Background", id := "bg",
                 default := rgb 255 0 0 : ActionOption }]) }
      pure (setA acc.1 scpAction act, setA acc.2 scpAction fb))
    ([], [])
  let commands := setA commands "macroRecStart" { label := "Record SCP Macro" }
  let commands := setA commands "macroRecStop" { label := "Stop Recording" }
  let feedbacks := setA feedbacks "macroRecStart"
    { label := "Macro is Recording", options := some (
      [{ type := "checkbox", label := .str "ON", id := "on",
         default := .boolean true : ActionOption },
       { type := "colorpicker", label := .str "Color", id := "fg",
         default := rgb 0 0 0 : ActionOption },
       { type := "colorpicker", label := .str "Background", id := "bg",
         default := rgb 255 0 0 : ActionOption }]) }
  pure (commands, feedbacks)

/-- The host-supplied option bag of an action invocation or feedback
subscription, a JS object read dynamically (`opt.X`, `opt.Val`, ...). -/
abbrev Options := String → JSVal

/-- Result of `parseCmd`: the returned command string (`none` for the
bare `return`s) and whether `this.pollScp()` was invoked on the way (the
scene-recall side effect, made explicit here). -/
structure ParseCmdOut where
  line : Option String
  polled : Bool
  deriving Repr

/-- The `this.scpCommands.find(cmd => 'scp_' + cmd.Index == scpCmd)`
lookup shared by `parseCmd` and `feedback`. -/
def findScpCommand (cmds : List ScpObj) (name : String) : Option ScpObj :=
  cmds.find? (fun c => jsConcat "scp_" (c "Index") == name)

/-- `parseCmd` of src/index.js (lines 403-452): encode one invocation
into an outbound SCP line. `scpCmd`/`opt` are `Option`s for the
`== undefined` guard on entry; a missing command yields `none` after the
logged diagnostic; the `scene`+`set` branch flags the `pollScp` call. -/
def parseCmd (cfg : Config) (cmds : List ScpObj) (pfx : String)
    (scpCmd : Option String) (opt : Option Options) : ParseCmdOut :=
  match scpCmd, opt with
  | some scpCmd, some opt =>
    let optX : JSVal :=
      if opt "X" = JSVal.undef then .num 1
      else if jsGtNum (opt "X") 0 then opt "X"
      else cfg.fields ("myCh" ++ jsToString (jsNegV (opt "X")))
    let optY : JSVal := if opt "Y" = JSVal.undef then .num 0 else jsSubNum (opt "Y") 1
    match findScpCommand cmds scpCmd with
    | none => { line := none, polled := false }
    | some scpCommand =>
      if scpCommand "Type" == JSVal.str "integer"
          || scpCommand "Type" == JSVal.str "binary" then
        let cmdName := pfx ++ " " ++ jsToString (scpCommand "Address")
        let optX2 := jsSubNum optX 1
        let optVal : JSVal := if pfx == "set" then jsAdd0 (opt "Val") else .str ""
        { line := some (jsTrim (cmdName ++ " " ++ jsToString optX2 ++ " "
            ++ jsToString optY ++ " " ++ jsToString optVal)), polled := false }
      else if scpCommand "Type" == JSVal.str "string" then
        let cmdName := pfx ++ " " ++ jsToString (scpCommand "Address")
        let optX2 := jsSubNum optX 1
        let optVal : JSVal :=
          if pfx == "set" then .str ("\"" ++ jsToString (opt "Val") ++ "\"") else .str ""
        { line := some (jsTrim (cmdName ++ " " ++ jsToString optX2 ++ " "
            ++ jsToString optY ++ " " ++ jsToString optVal)), polled := false }
      else if scpCommand "Type" == JSVal.str "scene" then
        let optY2 : JSVal := .str ""
        let optVal : JSVal := .str ""
        let scnPrefixed : String × JSVal × Bool :=
          if pfx == "set" then ("ssrecall_ex", optX, true)
          else ("sscurrent_ex", .str "", false)
        let cmdName :=
          if cfg.model == "CL/QL" then
            scnPrefixed.1 ++ " " ++ jsToString (scpCommand "Address")
          else
            scnPrefixed.1 ++ " " ++ jsToString (scpCommand "Address") ++ jsToString (opt "Y")
        { line := some (jsTrim (cmdName ++ " " ++ jsToString scnPrefixed.2.1 ++ " "
            ++ jsToString optY2 ++ " " ++ jsToString optVal)), polled := scnPrefixed.2.2 }
      else
        { line := some (jsTrim (jsToString (scpCommand "Address") ++ " "
            ++ jsToString optX ++ " " ++ jsToString optY ++ " "
            ++ jsToString JSVal.undef)), polled := false }
  | _, _ => { line := none, polled := false }

/-- A feedback subscription as it sits in the host registry consumed by
`pollScp` (`getAllFeedbacks()`): its type, its option bag and the id of
the owning instance. -/
structure RegisteredFb where
  ftype : String
  options : Options
  instance_id : String

/-- `pollScp` of src/index.js (lines 626-635): the list of lines sent,
one `get`-form encoding for each registered feedback whose encoding is
defined and whose instance id matches. -/
def pollScp (cfg : Config) (cmds : List ScpObj) (allFeedbacks : List RegisteredFb)
    (myId : String) : List String :=
  allFeedbacks.foldl
    (fun acc fb =>
      let cmd := parseCmd cfg cmds "get" (some fb.ftype) (some fb.options)
      match cmd.line with
      | some l => if myId == fb.instance_id then acc ++ [l] else acc
      | none => acc)
    []

/-- `action` of src/index.js (lines 527-570), projected onto the lines it
sends to the socket, in order: the macro branch sends nothing; otherwise
the lines of the `pollScp` fan-out triggered inside `parseCmd` (scene
recall) go out first, then the encoded command itself when the socket is
connected. -/
def action (cfg : Config) (cmds : List ScpObj) (registry : List RegisteredFb)
    (myId : String) (actionId : String) (options : Options) (connected : Bool) :
    List String :=
  if jsStartsWith actionId "macro" then []
  else
    let r := parseCmd cfg cmds "set" (some actionId) (some options)
    let polls := if r.polled then pollScp cfg cmds registry myId else []
    polls ++ (match r.line with
      | some cmd => if connected then [cmd] else []
      | none => [])

/-- Innermost level of `this.dataStore`: Y key to value. -/
abbrev Store2 := List (String × JSVal)

/-- Middle level of `this.dataStore`: X key to inner object. -/
abbrev Store1 := List (String × Store2)

/-- `this.dataStore`: command key (`scp_N`) to X-keyed object. All JS
property keys are strings, so the numeric coordinates are stored under
their string images. -/
abbrev DataStore := List (String × Store1)

/-- The create-if-missing nested assignment of `addToDataStore` (lines
657-663): ensure `ds[k1]` and `ds[k1][k2]` exist, then `ds[k1][k2][k3] = v`. -/
def store3 (ds : DataStore) (k1 k2 k3 : String) (v : JSVal) : DataStore :=
  let m1 := (getA ds k1).getD []
  let m2 := (getA m1 k2).getD []
  setA ds k1 (setA m1 k2 (setA m2 k3 v))

/-- `addToDataStore` of src/index.js (lines 638-665). The function
mutates its record argument (`cmd.cmd`): a missing `Val` is replaced by
`parseInt` of `X` and `X` is rewritten to `undefined` and then `0`;
missing coordinates default to `0`; the stored coordinates are the
`parseInt`-plus-one images. On model TF with Index 1000 the Y key is the
last character of the record's `Address` (a TypeError when the record
has no `Address`, hence `Except`). Returns the new store and the mutated
record, which `init_tcp` subsequently passes on to `addMacro`. -/
def addToDataStore (cfg : Config) (scp : ScpObj) (rcd : ScpObj) (ds : DataStore) :
    Except Unit (DataStore × ScpObj) :=
  let idx := scp "Index"
  let r1 :=
    if jsLooseEq (rcd "Val") JSVal.undef then
      objSet (objSet rcd "Val" (jsParseInt (rcd "X"))) "X" JSVal.undef
    else rcd
  let r2 := objSet r1 "X" (if jsLooseEq (r1 "X") JSVal.undef then .num 0 else r1 "X")
  let iX := jsAddInt (jsParseInt (r2 "X")) 1
  let key := jsConcat "scp_" idx
  if cfg.model == "TF" && jsLooseEq idx (.num 1000) then
    match r2 "Address" with
    | .str a => .ok (store3 ds key (jsToString iX) (jsSliceFrom a (-1)) (r2 "Val"), r2)
    | _ => .error ()
  else
    let r3 := objSet r2 "Y" (if jsLooseEq (r2 "Y") JSVal.undef then .num 0 else r2 "Y")
    let iY := jsAddInt (jsParseInt (r3 "Y")) 1
    .ok (store3 ds key (jsToString iX) (jsToString iY) (r3 "Val"), r3)

/-- The `bank` argument of `feedback`: the button's own appearance. -/
structure Bank where
  text : JSVal
  color : JSVal
  bgcolor : JSVal
  deriving DecidableEq, Repr

/-- The `retOptions` objects `feedback` returns; properties a branch does
not set read as `undefined`. -/
structure RetOptions where
  text : JSVal := JSVal.undef
  color : JSVal := JSVal.undef
  bgcolor : JSVal := JSVal.undef
  deriving DecidableEq, Repr

/-- `feedback` of src/index.js (lines 574-621): evaluate one feedback
subscription against the value cache. `none` is the bare `return`
(no visual change). -/
def feedback (cfg : Config) (names : ScpNames) (cmds : List ScpObj)
    (nameCommands colorCommands : List String) (ds : DataStore) (macroRec : Bool)
    (ftype : String) (options : Options) (bank : Bank) : Option RetOptions :=
  match findScpCommand cmds ftype with
  | some scpCommand =>
    let optVal : JSVal :=
      if jsLooseEq (options "Val") JSVal.undef then options "X"
      else if jsLooseEq (scpCommand "Type") (.str "integer") then jsAdd0 (options "Val")
      else .str (jsToString (options "Val"))
    let optX : JSVal :=
      if jsGtNum (options "X") 0 then options "X"
      else cfg.fields ("myCh" ++ jsToString (jsNegV (options "X")))
    let optY : JSVal := if jsLooseEq (options "Y") JSVal.undef then .num 1 else options "Y"
    match getA ds ftype with
    | none => none
    | some m1 =>
      match getA m1 (jsToString optX) with
      | none => none
      | some m2 =>
        let cached : JSVal := (getA m2 (jsToString optY)).getD JSVal.undef
        if jsLooseEq cached optVal then
          some { text := if jsLooseEq (options "text") JSVal.undef then bank.text
                         else options "text",
                 color := options "fg", bgcolor := options "bg" }
        else if colorCommands.contains ftype then
          let c := names.chColorRGB (jsToString cached)
          some { text := bank.text, color := c.color, bgcolor := c.bgcolor }
        else if nameCommands.contains ftype then
          some { text := cached, color := bank.color, bgcolor := bank.bgcolor }
        else none
  | none =>
    if ftype == "macroRecStart" && jsLooseEq (options "on") (.boolean macroRec) then
      some { color := options "fg", bgcolor := options "bg" }
    else none

/-- One entry of a macro preset's action list: `addMacro` first pushes a
bare empty array placeholder, then overwrites the slot with the real
`{action, options}` object. -/
inductive MacroEntry where
  | emptyArr
  | act (action : String) (x y v : JSVal)
  deriving DecidableEq, Repr

/-- A preset, reduced to the parts `addMacro` touches. -/
structure Preset where
  label : String := ""
  actions : List MacroEntry := []
  deriving DecidableEq, Repr

/-- `addMacro` of src/index.js (lines 478-523): when recording, fold the
(already cache-normalized) record into the action list of the last
preset. Reading `.actions` off `this.scpPresets[length-1]` of an empty
preset list is a TypeError. -/
def addMacro (macroRec : Bool) (presets : List Preset) (scp : ScpObj) (rcd : ScpObj) :
    Except Unit (List Preset) :=
  if !macroRec then .ok presets
  else
    let cX0 := jsParseInt (rcd "X")
    let cY0 := jsParseInt (rcd "Y")
    let cxyv : JSVal × JSVal × JSVal :=
      if scp "Type" == JSVal.str "integer" || scp "Type" == JSVal.str "binary" then
        (jsAddInt cX0 1, jsAddInt cY0 1,
         if jsLooseEq (scp "Max") (.num 1) then
           .boolean (!(jsLooseEq (rcd "Val") (.num 0)))
         else jsParseInt (rcd "Val"))
      else if scp "Type" == JSVal.str "string" then
        (jsAddInt cX0 1, jsAddInt cY0 1, rcd "Val")
      else
        (cX0, cY0, JSVal.undef)
    match presets.getLast? with
    | none => .error ()
    | some last =>
      let scpActions := last.actions
      let foundIdx := scpActions.findIdx? (fun e =>
        match e with
        | .emptyArr => false
        | .act a x y _ =>
          a == jsConcat "scp_" (scp "Index") && jsLooseEq x cxyv.1 && jsLooseEq y cxyv.2.1)
      let placed : List MacroEntry × Nat :=
        match foundIdx with
        | some i => (scpActions, i)
        | none => (scpActions ++ [.emptyArr], scpActions.length)
      let scpActions3 := placed.1.set placed.2
        (.act (jsConcat "scp_" (scp "Index")) cxyv.1 cxyv.2.1 cxyv.2.2)
      .ok (presets.dropLast ++ [{ last with actions := scpActions3 }])

/-- The per-instance state the inbound-data path reads and writes. -/
structure InstState where
  dataStore : DataStore := []
  productName : String := ""
  scpPresets : List Preset := []
  macroRec : Bool := false
  nameCommands : List String := []
  colorCommands : List String := []
  deriving DecidableEq, Repr

/-- The `this.scpCommands.find(cmd => cmd.Address ==
receivedcmds[i].Address.slice(0, cmd.Address.length))` lookup of the data
handler (line 245); a record or descriptor without a string `Address`
makes the predicate throw. -/
def findCmdFor (cmds : List ScpObj) (rcd : ScpObj) : Except Unit (Option ScpObj) :=
  match cmds with
  | [] => .ok none
  | c :: t =>
    match c "Address", rcd "Address" with
    | .str ca, .str ra =>
      if ca == jsSlice2 ra 0 ca.data.length then .ok (some c) else findCmdFor t rcd
    | _, _ => .error ()

/-- The `for (let i=0; i < receivedcmds.length; i++)` body of the data
handler (lines 244-256): match each decoded record to a descriptor, feed
the store and the macro recorder (with the record as mutated by
`addToDataStore`), drop unknown addresses. -/
def handleCmds (cfg : Config) (cmds : List ScpObj) :
    List ScpObj → InstState → Except Unit InstState
  | [], st => .ok st
  | rcd :: rest, st =>
    match findCmdFor cmds rcd with
    | .error _ => .error ()
    | .ok none => handleCmds cfg cmds rest st
    | .ok (some scp) =>
      match addToDataStore cfg scp rcd st.dataStore with
      | .error _ => .error ()
      | .ok (ds2, rcd2) =>
        match addMacro st.macroRec st.scpPresets scp rcd2 with
        | .error _ => .error ()
        | .ok ps2 =>
          handleCmds cfg cmds rest { st with dataStore := ds2, scpPresets := ps2 }

/-- One iteration of the `for (let line of receivedLines)` loop of the
socket data handler (src/index.js lines 228-258): skip empty lines,
handle the `devinfo productname` acknowledgement (whose slice index comes
from the whole receive buffer), otherwise decode with the value schema
and process each record. -/
def handleLine (cfg : Config) (cmds : List ScpObj) (receivebuffer : String)
    (st : InstState) (line : String) : Except Unit InstState :=
  if line.length == 0 then .ok st
  else if jsIndexOfStr line "OK devinfo productname" != -1 then
    .ok { st with productName := jsSliceFrom line (jsLastIndexOfStr receivebuffer " ") }
  else
    match parseData .vals line ⟨st.nameCommands, st.colorCommands⟩ with
    | (.error _, _) => .error ()
    | (.ok recs, ps) =>
      handleCmds cfg cmds recs
        { st with nameCommands := ps.nameCommands, colorCommands := ps.colorCommands }

/-- Whether an `Except` computation succeeded (JS: no exception thrown). -/
def exceptIsOk {e a : Type} : Except e a → Bool
  | .ok _ => true
  | .error _ => false

/-- A CL/QL configuration with no `myCh` aliases set. -/
def cfgCLQL : Config :=
  { model := "CL/QL", fields := fun _ => JSVal.undef }

/-- A concrete palette whose pairs are all `(111, 222)`, used as a test
instantiation of the opaque `scpNames` tables. -/
def trivNames : ScpNames :=
  { chNames := [], customChNames := [], chColors := [], chColorsTF := [],
    chIcons := [], danteOutPatch := [], omniOutPatch := [],
    chColorRGB := fun _ => { color := .num 111, bgcolor := .num 222 } }

/-- The scenario dictionary line of the spec (section 8). -/
def dictLineC1 : String :=
  "OK PRM 12 \"MIXER:Current/InCh/Fader/Level\" 72 1 0 1000 0 \"dB\" integer 1 1"

/-- The Command Descriptor object parsed from `dictLineC1`. -/
def cmd12 : ScpObj :=
  match (parseData .params dictLineC1 ⟨[], []⟩).1 with
  | .ok (c :: _) => c
  | _ => fun _ => JSVal.undef

/-- The `Val`-remap step of `addToDataStore` (lines 642-645) as a
standalone function of the record, for stating what the update returns. -/
def normRemap (rcd : ScpObj) : ScpObj :=
  if jsLooseEq (rcd "Val") JSVal.undef = true
  then objSet (objSet rcd "Val" (jsParseInt (rcd "X"))) "X" JSVal.undef else rcd

/-- The missing-coordinate default of `addToDataStore` (lines 647, 653). -/
def normCoord (w : JSVal) : JSVal :=
  if jsLooseEq w JSVal.undef = true then JSVal.num 0 else w

/-
  Shared helper lemmas.
-/

/-
  Concrete fixtures for the scenario claims.
-/

/-- The invocation option bag of the C1 scenario. -/
def optC1 : Options := fun k =>
  if k == "X" then .num 5 else if k == "Val" then .num 250 else JSVal.undef

/-- The literal inbound line of the C2 scenario (no command token). -/
def lineC2lit : String := "NOTIFY MIXER:Current/InCh/Fader/Level 4 0 250"

/-- The inbound line of the C2 scenario with the command token the value
schema expects in its second slot. -/
def lineC2set : String := "NOTIFY set MIXER:Current/InCh/Fader/Level 4 0 250"

/-- The subscription option bag of the C2 scenario: expected X 5 and
Val 250, with configured active colors 7/8. -/
def optsC2 : Options := fun k =>
  if k == "X" then .num 5 else if k == "Val" then .num 250
  else if k == "fg" then .num 7 else if k == "bg" then .num 8 else JSVal.undef

/-- The button bank appearance used in the feedback scenarios. -/
def bankC2 : Bank := { text := .str "T", color := .num 1, bgcolor := .num 2 }

/-- The color command fixture of the C4 scenario (`Address` ends in
`olor`, so the dictionary load classifies `scp_77` as a color command). -/
def cmdColor : ScpObj := fun k =>
  if k == "Index" then .str "77" else if k == "Type" then .str "string"
  else if k == "Address" then .str "MIXER:Current/InCh/Color" else JSVal.undef

/-- A color feedback subscription option bag (its value option is popped
by the Synthesizer, so `Val` is absent). -/
def optsC4 : Options := fun k =>
  if k == "X" then .num 1 else if k == "fg" then .num 7
  else if k == "bg" then .num 8 else JSVal.undef

/-- A cache holding raw color value `"1"` for `scp_77` at (1,1). -/
def dsC4 : DataStore := [("scp_77", [("1", [("1", .str "1")])])]

/-- The scene command fixture of the C7 scenario. -/
def sceneCmd : ScpObj := fun k =>
  if k == "Index" then .str "1000" else if k == "Type" then .str "scene"
  else if k == "Address" then .str "MIXER:Lib/Scene" else JSVal.undef

/-- A registered macro-recording feedback subscription of this instance. -/
def fbMacro : RegisteredFb :=
  { ftype := "macroRecStart", options := fun _ => JSVal.undef, instance_id := "me" }

/-- A registered fader-level feedback subscription of this instance. -/
def fbInt : RegisteredFb :=
  { ftype := "scp_12", options := fun _ => JSVal.undef, instance_id := "me" }

/-- The truthy `set` invocation of the C8 boolean-coercion scenario. -/
def optTrue : Options := fun k => if k == "Val" then .boolean true else JSVal.undef

/-- The boolean fader-mute descriptor fixture for the C8 witness. -/
def cmdBool : ScpObj := fun k =>
  if k == "Index" then .str "7" else if k == "Type" then .str "integer"
  else if k == "Max" then .str "1"
  else if k == "Address" then .str "MIXER:Current/InCh/Fader/On" else JSVal.undef

/-- Two strings with the same character data are equal. -/
theorem strExt (a b : String) (h : a.data = b.data) : a = b := by
  cases a; cases b; exact congrArg String.mk h

/-- Data of a string concatenation. -/
theorem data_append (a b : String) : (a ++ b).data = a.data ++ b.data := rfl

/-- Rebuilding a string from its data is the identity. -/
theorem mk_data (s : String) : String.mk s.data = s := rfl

/-- `trimLeftL` keeps a list whose head is not whitespace. -/
theorem trimLeftL_cons (c : Char) (l : List Char) (h : isWsChar c = false) :
    trimLeftL (c :: l) = c :: l := by
  simp [trimLeftL, List.dropWhile_cons, h]

/-- `trimRightL` keeps a list whose last element is not whitespace. -/
theorem trimRightL_concat (l : List Char) (c : Char) (h : isWsChar c = false) :
    trimRightL (l ++ [c]) = l ++ [c] := by
  simp [trimRightL, List.dropWhile_cons, h]

/-- `jsTrim` is the identity on a string that neither starts nor ends
with whitespace. -/
theorem jsTrim_head_last (a : Char) (mid : List Char) (b : Char)
    (ha : isWsChar a = false) (hb : isWsChar b = false) :
    jsTrim (String.mk (a :: (mid ++ [b]))) = String.mk (a :: (mid ++ [b])) := by
  unfold jsTrim
  have h1 : trimLeftL (a :: (mid ++ [b])) = a :: (mid ++ [b]) := trimLeftL_cons a _ ha
  have h2 : trimRightL ((a :: mid) ++ [b]) = (a :: mid) ++ [b] := trimRightL_concat _ b hb
  simp only [h1]
  rw [show a :: (mid ++ [b]) = (a :: mid) ++ [b] from rfl, h2]

/-- Reading the key just set. -/
theorem objSet_get_self (o : ScpObj) (k : String) (v : JSVal) : objSet o k v k = v := by
  simp [objSet]

/-- Reading another key. -/
theorem objSet_get_ne (o : ScpObj) (k : String) (v : JSVal) (q : String) (h : q ≠ k) :
    objSet o k v q = o q := by
  simp [objSet, h]

/-- Specialized object reads used by the cache-update lemmas. -/
theorem objSet_X_X (o : ScpObj) (v : JSVal) : objSet o "X" v "X" = v :=
  objSet_get_self o "X" v

/-- Specialized object read. -/
theorem objSet_X_Y (o : ScpObj) (v : JSVal) : objSet o "X" v "Y" = o "Y" :=
  objSet_get_ne o "X" v "Y" (by decide)

/-- Specialized object read. -/
theorem objSet_X_Val (o : ScpObj) (v : JSVal) : objSet o "X" v "Val" = o "Val" :=
  objSet_get_ne o "X" v "Val" (by decide)

/-- Specialized object read. -/
theorem objSet_X_Addr (o : ScpObj) (v : JSVal) : objSet o "X" v "Address" = o "Address" :=
  objSet_get_ne o "X" v "Address" (by decide)

/-- Specialized object read. -/
theorem objSet_Y_Y (o : ScpObj) (v : JSVal) : objSet o "Y" v "Y" = v :=
  objSet_get_self o "Y" v

/-- Specialized object read. -/
theorem objSet_Y_Val (o : ScpObj) (v : JSVal) : objSet o "Y" v "Val" = o "Val" :=
  objSet_get_ne o "Y" v "Val" (by decide)

/-- Specialized object read. -/
theorem objSet_Y_X (o : ScpObj) (v : JSVal) : objSet o "Y" v "X" = o "X" :=
  objSet_get_ne o "Y" v "X" (by decide)

/-- Specialized object read. -/
theorem objSet_Y_Addr (o : ScpObj) (v : JSVal) : objSet o "Y" v "Address" = o "Address" :=
  objSet_get_ne o "Y" v "Address" (by decide)

/-- `getA` after `setA` at the same key. -/
theorem getA_setA_self {α : Type} (l : List (String × α)) (k : String) (v : α) :
    getA (setA l k v) k = some v := by
  induction l with
  | nil => simp [setA, getA]
  | cons p t ih =>
    by_cases h : p.1 == k
    · simp [setA, getA, h]
    · simp [setA, getA, h, ih]

/-- Setting the same key twice keeps the last value only. -/
theorem setA_setA_self {α : Type} (l : List (String × α)) (k : String) (v w : α) :
    setA (setA l k v) k w = setA l k w := by
  induction l with
  | nil => simp [setA]
  | cons p t ih =>
    by_cases h : p.1 == k
    · simp [setA, h]
    · simp [setA, h, ih]

/-- Writing the same value at the same coordinates twice is one write. -/
theorem store3_idem (ds : DataStore) (k1 k2 k3 : String) (v : JSVal) :
    store3 (store3 ds k1 k2 k3 v) k1 k2 k3 v = store3 ds k1 k2 k3 v := by
  unfold store3
  simp only [getA_setA_self, Option.getD_some, setA_setA_self]

/-- `parseInt` never produces `undefined`. -/
theorem jsLooseEq_parseInt_undef (v : JSVal) :
    jsLooseEq (jsParseInt v) JSVal.undef = false := by
  unfold jsParseInt
  split <;> (try split) <;> rfl

/-- Claim C1 (counterexample): for the scenario dictionary line under
model CL/QL, the X-selector option of action `scp_12` is a channel-name
dropdown, not a numeric option — the full option list of the synthesized
action has ids/types `(X, dropdown)` and `(Val, number)`, and no option
with id `X` has type `number`, so the claimed numeric range `1..72`
X-selector does not exist in the schema. -/
theorem C1_counterexample :
    ((createAction cfgCLQL trivNames cmd12).toOption.map
      (fun a => (a.options.getD []).map (fun o => (o.id, o.type, o.min, o.max)))
      = some [("X", "dropdown", JSVal.undef, JSVal.undef), ("Val", "number", .str "0", .str "1000")])
    ∧ ((createAction cfgCLQL trivNames cmd12).toOption.map
        (fun a => (a.options.getD []).any (fun o => o.id == "X" && o.type == "number"))
      = some false) := by
  decide

/-- Claim C1 (amended): for the scenario dictionary line under model
CL/QL, the Synthesizer produces action `scp_12` whose X-selector is the
channel-name dropdown (the label starts with `InCh`), whose value option
is numeric with bounds taken from the descriptor (`Min` `"0"`, `Max`
`"1000"`, i.e. 0..1000), and encoding the invocation with `X = 5`,
`Val = 250` and prefix `set` yields exactly the wire line
`set MIXER:Current/InCh/Fader/Level 4 0 250`. -/
theorem C1_amended (names : ScpNames) :
    ((actions cfgCLQL names [cmd12] [] []).toOption.map (fun p => getA p.1 "scp_12")
      = some (some
        { label := "InCh/Fader/Level", options := some (
          [{ type := "dropdown", label := .str "InCh", id := "X", default := .num 1,
             minChoicesForSearch := .num 0, choices := some names.chNames },
           { type := "number", label := .str "Level", id := "Val", min := .str "0",
             max := .str "1000", default := .num 0, required := .boolean true,
             range := .boolean false }]) }))
    ∧ (parseCmd cfgCLQL [cmd12] "set" (some "scp_12") (some optC1)).line
      = some "set MIXER:Current/InCh/Fader/Level 4 0 250" :=
  ⟨rfl, by decide⟩

/-- Claim C2 (counterexample): the literal scenario line
`NOTIFY MIXER:Current/InCh/Fader/Level 4 0 250` does not update the
cache: the value schema puts the address in the `Command` slot and the
token `4` in the `Address` slot, so no descriptor matches, the handler
state is unchanged, and the feedback on the untouched cache yields no
match. -/
theorem C2_counterexample :
    handleLine cfgCLQL [cmd12] lineC2lit {} lineC2lit = .ok {}
    ∧ feedback cfgCLQL trivNames [cmd12] [] [] ([] : DataStore) false "scp_12" optsC2 bankC2
      = none := by
  decide

/-- Claim C2 (amended): the inbound line
`NOTIFY set MIXER:Current/InCh/Fader/Level 4 0 250` (carrying the
command token required by the value schema) is matched to the descriptor
with Index 12 and stores the wire token `"250"` in the value cache at
keys `scp_12` / `"5"` / `"1"` (the 0-based wire coordinates incremented
to 1-based), and a feedback subscription expecting `X = 5`, `Val = 250`
then evaluates to the matched state rendered with the subscription's
configured colors. -/
theorem C2_amended :
    handleLine cfgCLQL [cmd12] lineC2set {} lineC2set
      = .ok { dataStore := [("scp_12", [("5", [("1", .str "250")])])] }
    ∧ ((getA ([("scp_12", [("5", [("1", JSVal.str "250")])])] : DataStore) "scp_12").bind
        (fun m1 => (getA m1 "5").bind (fun m2 => getA m2 "1"))) = some (.str "250")
    ∧ feedback cfgCLQL trivNames [cmd12] [] []
        [("scp_12", [("5", [("1", .str "250")])])] false "scp_12" optsC2 bankC2
      = some { text := .str "T", color := .num 7, bgcolor := .num 8 } := by
  refine ⟨by decide, by decide, by decide⟩

/-- Claim C3 (code bug): the dictionary parser is not total on malformed
lines. On the single-token line `"OK"` the guard admits the line (its
first token is `OK`) and `line[1].toUpperCase()` dereferences
`undefined`, a TypeError that aborts the whole parse instead of the
claimed silent skip; the embedding evaluates the parser at that input to
the thrown-error result. -/
theorem C3_parser_throws :
    (parseData .params "OK" ⟨[], []⟩).1 = .error ()
    ∧ (parseData .vals "NOTIFY" ⟨[], []⟩).1 = .error () :=
  ⟨rfl, rfl⟩

/-- The record loop never touches the classification state under the
value schema: the appends are guarded on the schema being the dictionary
schema. -/
theorem parseDataGo_vals_state :
    ∀ (lines : List String) (cmds : List ScpObj) (st : ParseState),
      (parseDataGo .vals lines cmds st).2 = st
  | [], _, _ => rfl
  | l :: rest, cmds, st => by
    rw [parseDataGo]
    cases h : jsMatchTokens l with
    | none => exact parseDataGo_vals_state rest cmds st
    | some toks =>
      by_cases h0 : (upperStr (toks.headD "") == "OK"
          || upperStr (toks.headD "") == "NOTIFY") = true
      · simp only [h0, if_true]
        cases h1 : toks.get? 1 with
        | none => rfl
        | some t1 =>
          have hsc : (Schema.vals = Schema.params) = False := by simp
          simp only [hsc, if_false]
          split
          · exact parseDataGo_vals_state rest cmds st
          · exact parseDataGo_vals_state rest _ st
      · simp only [h0, if_false]
        exact parseDataGo_vals_state rest cmds st

/-- `handleCmds` leaves the classification lists untouched. -/
theorem handleCmds_classification :
    ∀ (cfg : Config) (cmds recs : List ScpObj) (st st2 : InstState),
      handleCmds cfg cmds recs st = .ok st2 →
      st2.nameCommands = st.nameCommands ∧ st2.colorCommands = st.colorCommands := by
  intro cfg cmds recs
  induction recs with
  | nil => intro st st2 h; cases h; exact ⟨rfl, rfl⟩
  | cons rcd rest ih =>
    intro st st2 h
    rw [handleCmds] at h
    split at h
    · simp at h
    · exact ih st st2 h
    · split at h
      · simp at h
      · split at h
        · simp at h
        · have := ih _ st2 h
          simpa using this

/-- Claim C10: the name-command and color-command classification lists
are modified only during dictionary load. Decoding any data with the
value schema returns the classification state unchanged (the append in
`parseData` is guarded on the schema being `SCP_PARAMS`), and any
successful run of the inbound line handler preserves both lists, so
classification is invariant under arbitrary sequences of decode
operations. -/
theorem C10_decode_preserves_classification (data : String) (st : ParseState)
    (cfg : Config) (cmds : List ScpObj) (buf line : String) (ist ist2 : InstState)
    (h : handleLine cfg cmds buf ist line = .ok ist2) :
    (parseData .vals data st).2 = st
    ∧ ist2.nameCommands = ist.nameCommands ∧ ist2.colorCommands = ist.colorCommands := by
  refine ⟨parseDataGo_vals_state _ [] st, ?_⟩
  rw [handleLine] at h
  by_cases h0 : (line.length == 0) = true
  · simp only [h0, if_true] at h
    cases h; exact ⟨rfl, rfl⟩
  · simp only [h0, if_false] at h
    by_cases h1 : (jsIndexOfStr line "OK devinfo productname" != -1) = true
    · simp only [h1, if_true] at h
      cases h; exact ⟨rfl, rfl⟩
    · simp only [h1, if_false] at h
      cases hp : (parseData .vals line ⟨ist.nameCommands, ist.colorCommands⟩) with
      | mk res ps =>
        rw [hp] at h
        cases res with
        | error e => cases h
        | ok recs =>
          have hps : ps = ⟨ist.nameCommands, ist.colorCommands⟩ := by
            have := parseDataGo_vals_state (splitOnChar '\x0A' line) []
              ⟨ist.nameCommands, ist.colorCommands⟩
            rw [show parseDataGo Schema.vals (splitOnChar '\x0A' line) []
                  ⟨ist.nameCommands, ist.colorCommands⟩
                = (Except.ok recs, ps) from hp] at this
            exact this
          subst hps
          have := handleCmds_classification cfg cmds recs _ ist2 h
          simpa using this

/-- Claim C10 witness: a concrete decode run (the C2 scenario line)
leaves the classification lists unchanged. -/
theorem C10_witness :
    (parseData .vals lineC2set ⟨["scp_1"], ["scp_2"]⟩).2 = ⟨["scp_1"], ["scp_2"]⟩
    ∧ ({ dataStore := [("scp_12", [("5", [("1", JSVal.str "250")])])] }
        : InstState).nameCommands = ({} : InstState).nameCommands
    ∧ ({ dataStore := [("scp_12", [("5", [("1", JSVal.str "250")])])] }
        : InstState).colorCommands = ({} : InstState).colorCommands :=
  C10_decode_preserves_classification lineC2set ⟨["scp_1"], ["scp_2"]⟩
    cfgCLQL [cmd12] lineC2set lineC2set {}
    { dataStore := [("scp_12", [("5", [("1", JSVal.str "250")])])] } (by decide)

/-- Claim C6: a command reference that matches no loaded Command
Descriptor encodes to nothing: `parseCmd` returns no line for any
prefix, and the action handler sends nothing at all, a no-op for the
caller. -/
theorem C6_unknown_command (cfg : Config) (cmds : List ScpObj)
    (registry : List RegisteredFb) (myId actionId pfx : String) (opt : Options)
    (connected : Bool)
    (h : ∀ c ∈ cmds, (jsConcat "scp_" (c "Index") == actionId) = false) :
    (parseCmd cfg cmds pfx (some actionId) (some opt)).line = none
    ∧ action cfg cmds registry myId actionId opt connected = [] := by
  have hf : findScpCommand cmds actionId = none := by
    rw [findScpCommand, List.find?_eq_none]
    intro c hc
    simp [h c hc]
  constructor
  · rw [parseCmd, hf]
  · by_cases hm : jsStartsWith actionId "macro" = true
    · simp [action, hm]
    · have hp : parseCmd cfg cmds "set" (some actionId) (some opt)
          = { line := none, polled := false } := by
        rw [parseCmd, hf]
      simp [action, hm, hp]

/-- Claim C6 witness: encoding `scp_99` against a catalog holding only
the descriptor with Index 12 yields no line and the handler sends
nothing. -/
theorem C6_witness :
    (parseCmd cfgCLQL [cmd12] "set" (some "scp_99") (some (fun _ => JSVal.undef))).line = none
    ∧ action cfgCLQL [cmd12] [] "me" "scp_99" (fun _ => JSVal.undef) true = [] :=
  C6_unknown_command cfgCLQL [cmd12] [] "me" "scp_99" "set" (fun _ => JSVal.undef) true
    (by decide)

/-- Claim C9: `addToDataStore` mutates the record it is given. Whenever
the record's `Val` is absent and the update does not throw, the returned
record (the very object `init_tcp` passes on to `addMacro` afterwards)
carries `parseInt` of the original `X` in its `Val` field and `0` in its
`X` field — not the values decoded from the wire. -/
theorem C9_record_mutation (cfg : Config) (scp rcd : ScpObj) (ds : DataStore)
    (hval : rcd "Val" = JSVal.undef)
    (hok : exceptIsOk (addToDataStore cfg scp rcd ds) = true) :
    (addToDataStore cfg scp rcd ds).map (fun p => (p.2 "Val", p.2 "X"))
      = .ok (jsParseInt (rcd "X"), .num 0)
    ∧ jsParseInt (rcd "X") ≠ rcd "Val" := by
  have hval' : jsLooseEq (rcd "Val") JSVal.undef = true := by rw [hval]; rfl
  have hne : jsParseInt (rcd "X") ≠ rcd "Val" := by
    rw [hval]
    intro hcontra
    have := jsLooseEq_parseInt_undef (rcd "X")
    rw [hcontra] at this
    simp [jsLooseEq] at this
  refine ⟨?_, hne⟩
  rw [addToDataStore] at hok ⊢
  simp only [hval', if_true] at hok ⊢
  have hx1 : objSet (objSet rcd "Val" (jsParseInt (rcd "X"))) "X" JSVal.undef "X"
      = JSVal.undef := objSet_get_self _ _ _
  have hlu : jsLooseEq JSVal.undef JSVal.undef = true := rfl
  simp only [hx1, hlu, if_true] at hok ⊢
  by_cases htf : (cfg.model == "TF" && jsLooseEq (scp "Index") (JSVal.num 1000)) = true
  · simp only [htf, if_true] at hok ⊢
    have haddr : objSet (objSet (objSet rcd "Val" (jsParseInt (rcd "X"))) "X" JSVal.undef)
        "X" (JSVal.num 0) "Address" = rcd "Address" := by
      rw [objSet_get_ne _ _ _ _ (by decide), objSet_get_ne _ _ _ _ (by decide),
        objSet_get_ne _ _ _ _ (by decide)]
    rw [haddr] at hok ⊢
    cases hA : rcd "Address" with
    | undef => rw [hA] at hok; simp [exceptIsOk] at hok
    | nan => rw [hA] at hok; simp [exceptIsOk] at hok
    | num n => rw [hA] at hok; simp [exceptIsOk] at hok
    | boolean b => rw [hA] at hok; simp [exceptIsOk] at hok
    | str a => rfl
  · rw [Bool.not_eq_true] at htf
    simp only [htf, Bool.false_eq_true, if_false]
    rfl

/-- Claim C9 witness: a record decoded as `X = "4"` with no `Val` is
rewritten to `Val = 4`, `X = 0` by the cache update. -/
theorem C9_witness :
    (addToDataStore cfgCLQL cmd12 (fun k => if k == "X" then .str "4" else JSVal.undef) []).map
        (fun p => (p.2 "Val", p.2 "X"))
      = .ok (.num 4, .num 0)
    ∧ (JSVal.num 4 : JSVal) ≠ JSVal.undef :=
  C9_record_mutation cfgCLQL cmd12 (fun k => if k == "X" then .str "4" else JSVal.undef) []
    (by decide) (by decide)

/-- The remapped record never has a loosely-undefined `Val`. -/
theorem normRemap_val_not_undef (rcd : ScpObj) :
    jsLooseEq ((normRemap rcd) "Val") JSVal.undef = false := by
  unfold normRemap
  split
  · rw [objSet_get_ne _ _ _ _ (by decide), objSet_get_self, jsLooseEq_parseInt_undef]
  · rename_i h
    rw [Bool.not_eq_true] at h
    exact h

/-- The remap step does not touch the `Address` property. -/
theorem normRemap_addr (rcd : ScpObj) : (normRemap rcd) "Address" = rcd "Address" := by
  unfold normRemap
  split
  · rw [objSet_get_ne _ _ _ _ (by decide), objSet_get_ne _ _ _ _ (by decide)]
  · rfl

/-- A defaulted coordinate is never loosely undefined. -/
theorem normCoord_not_undef (w : JSVal) :
    jsLooseEq (normCoord w) JSVal.undef = false := by
  unfold normCoord
  split
  · rfl
  · rename_i h
    rw [Bool.not_eq_true] at h
    exact h

/-- Defaulting a coordinate twice is defaulting it once. -/
theorem normCoord_idem (w : JSVal) : normCoord (normCoord w) = normCoord w := by
  conv_lhs => rw [normCoord]
  rw [normCoord_not_undef]
  simp

/-- The remap step is the identity on a record whose `Val` is present. -/
theorem normRemap_of_not_undef (r : ScpObj) (h : jsLooseEq (r "Val") JSVal.undef = false) :
    normRemap r = r := by
  unfold normRemap
  rw [h]
  simp

/-- Closed form of `addToDataStore` outside the TF/Index-1000 special
case, with the object reads evaluated. -/
theorem addToDataStore_eq_else (cfg : Config) (scp rcd : ScpObj) (ds : DataStore)
    (htf : (cfg.model == "TF" && jsLooseEq (scp "Index") (JSVal.num 1000)) = false) :
    addToDataStore cfg scp rcd ds =
      .ok (store3 ds (jsConcat "scp_" (scp "Index"))
        (jsToString (jsAddInt (jsParseInt (normCoord ((normRemap rcd) "X"))) 1))
        (jsToString (jsAddInt (jsParseInt (normCoord ((normRemap rcd) "Y"))) 1))
        ((normRemap rcd) "Val"),
        objSet (objSet (normRemap rcd) "X" (normCoord ((normRemap rcd) "X"))) "Y"
          (normCoord ((normRemap rcd) "Y"))) := by
  simp only [addToDataStore, htf, Bool.false_eq_true, if_false]
  rw [show (if jsLooseEq (rcd "Val") JSVal.undef = true
      then objSet (objSet rcd "Val" (jsParseInt (rcd "X"))) "X" JSVal.undef
      else rcd) = normRemap rcd from rfl]
  simp only [objSet_X_X, objSet_X_Y, objSet_Y_Y, objSet_X_Val, objSet_Y_Val]
  rw [show (if jsLooseEq ((normRemap rcd) "X") JSVal.undef = true then JSVal.num 0
      else (normRemap rcd) "X") = normCoord ((normRemap rcd) "X") from rfl,
    show (if jsLooseEq ((normRemap rcd) "Y") JSVal.undef = true then JSVal.num 0
      else (normRemap rcd) "Y") = normCoord ((normRemap rcd) "Y") from rfl]

/-- Closed form of `addToDataStore` in the TF/Index-1000 special case,
with the object reads evaluated. -/
theorem addToDataStore_eq_tf (cfg : Config) (scp rcd : ScpObj) (ds : DataStore)
    (htf : (cfg.model == "TF" && jsLooseEq (scp "Index") (JSVal.num 1000)) = true) :
    addToDataStore cfg scp rcd ds =
      (match rcd "Address" with
       | .str a =>
         .ok (store3 ds (jsConcat "scp_" (scp "Index"))
           (jsToString (jsAddInt (jsParseInt (normCoord ((normRemap rcd) "X"))) 1))
           (jsSliceFrom a (-1)) ((normRemap rcd) "Val"),
           objSet (normRemap rcd) "X" (normCoord ((normRemap rcd) "X")))
       | _ => .error ()) := by
  simp only [addToDataStore, htf, if_true]
  rw [show (if jsLooseEq (rcd "Val") JSVal.undef = true
      then objSet (objSet rcd "Val" (jsParseInt (rcd "X"))) "X" JSVal.undef
      else rcd) = normRemap rcd from rfl]
  simp only [objSet_X_X, objSet_X_Val, objSet_X_Addr, normRemap_addr]
  rw [show (if jsLooseEq ((normRemap rcd) "X") JSVal.undef = true then JSVal.num 0
      else (normRemap rcd) "X") = normCoord ((normRemap rcd) "X") from rfl]

/-- Claim C5: applying the same Value Record to the value cache twice in
succession leaves the cache exactly as after one application. The second
application acts on the record as mutated by the first (the JS object is
shared), targets the same coordinates with the same value, and the
nested create-and-assign write is idempotent, so the store returned by
the second call equals the store after the first. -/
theorem C5_idempotent_cache (cfg : Config) (scp rcd : ScpObj) (ds ds1 : DataStore)
    (rcd1 : ScpObj)
    (h : addToDataStore cfg scp rcd ds = .ok (ds1, rcd1)) :
    (addToDataStore cfg scp rcd1 ds1).map Prod.fst = .ok ds1 := by
  by_cases htf : (cfg.model == "TF" && jsLooseEq (scp "Index") (JSVal.num 1000)) = true
  · rw [addToDataStore_eq_tf cfg scp rcd ds htf] at h
    cases hA : rcd "Address" with
    | str a =>
      rw [hA] at h
      injection h with h2
      injection h2 with hds hr
      subst hds
      subst hr
      have hvread : (objSet (normRemap rcd) "X" (normCoord ((normRemap rcd) "X"))) "Val"
          = (normRemap rcd) "Val" := objSet_get_ne _ _ _ _ (by decide)
      have hxread : (objSet (normRemap rcd) "X" (normCoord ((normRemap rcd) "X"))) "X"
          = normCoord ((normRemap rcd) "X") := objSet_get_self _ _ _
      have haread : (objSet (normRemap rcd) "X" (normCoord ((normRemap rcd) "X"))) "Address"
          = rcd "Address" := by
        rw [objSet_get_ne _ _ _ _ (by decide), normRemap_addr]
      have hstable : normRemap (objSet (normRemap rcd) "X" (normCoord ((normRemap rcd) "X")))
          = objSet (normRemap rcd) "X" (normCoord ((normRemap rcd) "X")) := by
        apply normRemap_of_not_undef
        rw [hvread]
        exact normRemap_val_not_undef rcd
      rw [addToDataStore_eq_tf cfg scp _ _ htf, hstable, hvread, hxread, normCoord_idem,
        haread, hA]
      simp only [Except.map]
      rw [store3_idem]
    | undef => rw [hA] at h; exact Except.noConfusion h
    | nan => rw [hA] at h; exact Except.noConfusion h
    | num n => rw [hA] at h; exact Except.noConfusion h
    | boolean b => rw [hA] at h; exact Except.noConfusion h
  · rw [Bool.not_eq_true] at htf
    rw [addToDataStore_eq_else cfg scp rcd ds htf] at h
    injection h with h2
    injection h2 with hds hr
    subst hds
    subst hr
    have hvread : (objSet (objSet (normRemap rcd) "X" (normCoord ((normRemap rcd) "X"))) "Y"
        (normCoord ((normRemap rcd) "Y"))) "Val" = (normRemap rcd) "Val" := by
      rw [objSet_get_ne _ _ _ _ (by decide), objSet_get_ne _ _ _ _ (by decide)]
    have hxread : (objSet (objSet (normRemap rcd) "X" (normCoord ((normRemap rcd) "X"))) "Y"
        (normCoord ((normRemap rcd) "Y"))) "X" = normCoord ((normRemap rcd) "X") := by
      rw [objSet_get_ne _ _ _ _ (by decide), objSet_get_self]
    have hyread : (objSet (objSet (normRemap rcd) "X" (normCoord ((normRemap rcd) "X"))) "Y"
        (normCoord ((normRemap rcd) "Y"))) "Y" = normCoord ((normRemap rcd) "Y") :=
      objSet_get_self _ _ _
    have hstable : normRemap (objSet (objSet (normRemap rcd) "X"
          (normCoord ((normRemap rcd) "X"))) "Y" (normCoord ((normRemap rcd) "Y")))
        = objSet (objSet (normRemap rcd) "X" (normCoord ((normRemap rcd) "X"))) "Y"
          (normCoord ((normRemap rcd) "Y")) := by
      apply normRemap_of_not_undef
      rw [hvread]
      exact normRemap_val_not_undef rcd
    rw [addToDataStore_eq_else cfg scp _ _ htf, hstable, hvread, hxread, hyread,
      normCoord_idem, normCoord_idem]
    simp only [Except.map]
    rw [store3_idem]

/-- Claim C5 witness: applying the C2 scenario record twice stores once. -/
theorem C5_witness :
    (addToDataStore cfgCLQL cmd12
        (objSet (objSet (fun k => if k == "X" then .str "4"
          else if k == "Y" then .str "0" else if k == "Val" then .str "250" else JSVal.undef)
          "X" (.str "4")) "Y" (.str "0"))
        [("scp_12", [("5", [("1", JSVal.str "250")])])]).map Prod.fst
      = .ok [("scp_12", [("5", [("1", JSVal.str "250")])])] :=
  C5_idempotent_cache cfgCLQL cmd12
    (fun k => if k == "X" then .str "4"
      else if k == "Y" then .str "0" else if k == "Val" then .str "250" else JSVal.undef)
    [] [("scp_12", [("5", [("1", JSVal.str "250")])])]
    (objSet (objSet (fun k => if k == "X" then .str "4"
      else if k == "Y" then .str "0" else if k == "Val" then .str "250" else JSVal.undef)
      "X" (.str "4")) "Y" (.str "0"))
    (by rfl)

/-- Claim C4 (counterexample): a color-type command with a present cache
entry whose cached value equals the comparison value is rendered with
the subscription's configured colors (7/8), not with the palette pair —
the palette (here constantly (111, 222)) is not consulted on a match, so
the cached value is not resolved through the palette "regardless of the
match outcome". -/
theorem C4_counterexample :
    feedback cfgCLQL trivNames [cmdColor] [] ["scp_77"] dsC4 false "scp_77" optsC4 bankC2
      = some { text := .str "T", color := .num 7, bgcolor := .num 8 }
    ∧ trivNames.chColorRGB "1" = { color := .num 111, bgcolor := .num 222 }
    ∧ ((JSVal.num 7 : JSVal) ≠ .num 111 ∧ (JSVal.num 8 : JSVal) ≠ .num 222) := by
  decide

/-- Claim C4 (amended): for a feedback evaluation of a color-type
command whose cache entry at the resolved coordinates is present, the
cached raw value is resolved through the palette table and used as the
render directive only when it differs (under loose equality) from the
comparison value — which, the value option being popped from color
feedback schemas, is the expected X; on equality the subscription's own
configured colors are used instead. -/
theorem C4_amended (cfg : Config) (names : ScpNames) (cmds : List ScpObj)
    (nameCommands colorCommands : List String) (ds : DataStore) (macroRec : Bool)
    (ftype : String) (options : Options) (bank : Bank) (scpCommand : ScpObj)
    (x y : Int) (m1 : Store1) (m2 : Store2) (cached : JSVal)
    (hfind : findScpCommand cmds ftype = some scpCommand)
    (hvopt : options "Val" = JSVal.undef)
    (hx : options "X" = .num x) (hxpos : 0 < x)
    (hy : options "Y" = .num y)
    (hds : getA ds ftype = some m1)
    (hm1 : getA m1 (jsToString (JSVal.num x)) = some m2)
    (hm2 : getA m2 (jsToString (JSVal.num y)) = some cached)
    (hneq : jsLooseEq cached (.num x) = false)
    (hcol : colorCommands.contains ftype = true) :
    feedback cfg names cmds nameCommands colorCommands ds macroRec ftype options bank
      = some { text := bank.text, color := (names.chColorRGB (jsToString cached)).color,
               bgcolor := (names.chColorRGB (jsToString cached)).bgcolor } := by
  have hgt : jsGtNum (JSVal.num x) 0 = true := by
    simp only [jsGtNum, jsToNumberV]
    exact decide_eq_true hxpos
  have hyu : jsLooseEq (JSVal.num y) JSVal.undef = false := rfl
  have hvu : jsLooseEq (options "Val") JSVal.undef = true := by rw [hvopt]; rfl
  simp only [feedback, hfind, hvu, if_true, hx, hgt, hy, hyu, Bool.false_eq_true,
    if_false, hds, hm1, hm2, Option.getD_some, hneq, hcol, if_true]

/-- Claim C4 witness: with cached raw value `"3"` differing from the
expected X `1`, the palette pair is the render directive. -/
theorem C4_witness :
    feedback cfgCLQL trivNames [cmdColor] [] ["scp_77"]
        [("scp_77", [("1", [("1", JSVal.str "3")])])] false "scp_77"
        (fun k => if k == "X" then .num 1 else if k == "Y" then .num 1
          else if k == "fg" then .num 7 else if k == "bg" then .num 8 else JSVal.undef)
        bankC2
      = some { text := .str "T", color := .num 111, bgcolor := .num 222 } :=
  C4_amended cfgCLQL trivNames [cmdColor] [] ["scp_77"]
    [("scp_77", [("1", [("1", JSVal.str "3")])])] false "scp_77"
    (fun k => if k == "X" then .num 1 else if k == "Y" then .num 1
      else if k == "fg" then .num 7 else if k == "bg" then .num 8 else JSVal.undef)
    bankC2 cmdColor 1 1 [("1", [("1", JSVal.str "3")])] [("1", JSVal.str "3")]
    (JSVal.str "3") (by rfl) (by decide) (by decide) (by decide) (by decide)
    (by decide) (by decide) (by decide) (by decide) (by decide)

/-- Folding an append-step accumulates by appending. -/
theorem foldl_acc_append {α β : Type} (f : List α → β → List α)
    (hf : ∀ acc x, f acc x = acc ++ f [] x) (l : List β) :
    ∀ acc, l.foldl f acc = acc ++ l.foldl f [] := by
  induction l with
  | nil => intro acc; simp
  | cons x t ih =>
    intro acc
    rw [List.foldl_cons, List.foldl_cons, ih (f acc x), ih (f [] x), hf acc x,
      List.append_assoc]

/-- The poll loop body appends its contribution to the accumulator. -/
theorem pollStep_append (cfg : Config) (cmds : List ScpObj) (myId : String) :
    ∀ (acc : List String) (fb : RegisteredFb),
      (fun (acc : List String) (fb : RegisteredFb) =>
        let cmd := parseCmd cfg cmds "get" (some fb.ftype) (some fb.options)
        match cmd.line with
        | some l => if myId == fb.instance_id then acc ++ [l] else acc
        | none => acc) acc fb
      = acc ++ (fun (acc : List String) (fb : RegisteredFb) =>
        let cmd := parseCmd cfg cmds "get" (some fb.ftype) (some fb.options)
        match cmd.line with
        | some l => if myId == fb.instance_id then acc ++ [l] else acc
        | none => acc) [] fb := by
  intro acc fb
  cases hl : (parseCmd cfg cmds "get" (some fb.ftype) (some fb.options)).line with
  | none => simp [hl]
  | some l =>
    by_cases hid : (myId == fb.instance_id) = true
    · simp [hl, hid]
    · simp [hl, hid]

/-- The poll loop over a feedback list accumulates by appending. -/
theorem pollScp_foldl_acc (cfg : Config) (cmds : List ScpObj) (myId : String)
    (fbs : List RegisteredFb) (acc : List String) :
    fbs.foldl
      (fun acc fb =>
        let cmd := parseCmd cfg cmds "get" (some fb.ftype) (some fb.options)
        match cmd.line with
        | some l => if myId == fb.instance_id then acc ++ [l] else acc
        | none => acc)
      acc
    = acc ++ fbs.foldl
        (fun acc fb =>
          let cmd := parseCmd cfg cmds "get" (some fb.ftype) (some fb.options)
          match cmd.line with
          | some l => if myId == fb.instance_id then acc ++ [l] else acc
          | none => acc)
        [] :=
  foldl_acc_append _ (pollStep_append cfg cmds myId) fbs acc

/-- A registered feedback of this instance whose `get` encoding yields a
line contributes that line to the poll fan-out. -/
theorem pollScp_mem (cfg : Config) (cmds : List ScpObj) (registry : List RegisteredFb)
    (myId : String) (fb : RegisteredFb) (l : String)
    (hmem : fb ∈ registry)
    (hid : (myId == fb.instance_id) = true)
    (hl : (parseCmd cfg cmds "get" (some fb.ftype) (some fb.options)).line = some l) :
    l ∈ pollScp cfg cmds registry myId := by
  induction registry with
  | nil => cases hmem
  | cons g t ih =>
    rcases List.mem_cons.mp hmem with hfg | hmem2
    · subst hfg
      show l ∈ List.foldl _ _ (fb :: t)
      rw [List.foldl_cons]
      have hstep :
          (let cmd := parseCmd cfg cmds "get" (some fb.ftype) (some fb.options)
           match cmd.line with
           | some l => if myId == fb.instance_id then ([] : List String) ++ [l] else []
           | none => []) = [l] := by
        simp [hl, hid]
      rw [hstep, pollScp_foldl_acc cfg cmds myId t [l]]
      exact List.mem_append_left _ (List.mem_singleton_self l)
    · show l ∈ List.foldl _ _ (g :: t)
      rw [List.foldl_cons, pollScp_foldl_acc cfg cmds myId t]
      exact List.mem_append_right _ (ih hmem2)

/-- Claim C7 (amended): when a scene recall is encoded (prefix `set` on
a scene-type command), the encoder itself triggers the feedback re-poll:
the handler's sends are exactly the poll fan-out followed by the
`ssrecall_ex` line, and the fan-out contains the encoded `get`-form
query of every registered subscription that belongs to this instance and
whose command encodes to a line (subscriptions that do not encode, such
as the macro-recording feedback, are skipped). -/
theorem C7_scene_recall_repolls (cfg : Config) (cmds : List ScpObj)
    (registry : List RegisteredFb) (myId actionId : String) (opt : Options)
    (cmd : ScpObj)
    (hfind : findScpCommand cmds actionId = some cmd)
    (hty : cmd "Type" = .str "scene")
    (hmac : jsStartsWith actionId "macro" = false) :
    (∃ l, (parseCmd cfg cmds "set" (some actionId) (some opt)).line = some l
      ∧ action cfg cmds registry myId actionId opt true
          = pollScp cfg cmds registry myId ++ [l])
    ∧ (∀ fb ∈ registry, (myId == fb.instance_id) = true →
        ∀ l, (parseCmd cfg cmds "get" (some fb.ftype) (some fb.options)).line = some l →
          l ∈ pollScp cfg cmds registry myId) := by
  have h1 : (cmd "Type" == JSVal.str "integer") = false := by rw [hty]; rfl
  have h2 : (cmd "Type" == JSVal.str "binary") = false := by rw [hty]; rfl
  have h3 : (cmd "Type" == JSVal.str "string") = false := by rw [hty]; rfl
  have h4 : (cmd "Type" == JSVal.str "scene") = true := by rw [hty]; rfl
  obtain ⟨l, hl⟩ : ∃ l, (parseCmd cfg cmds "set" (some actionId) (some opt)).line
      = some l := by
    simp only [parseCmd, hfind, h1, h2, h3, h4, Bool.or_self, Bool.false_eq_true,
      if_false, if_true]
    exact ⟨_, rfl⟩
  have hpol : (parseCmd cfg cmds "set" (some actionId) (some opt)).polled = true := by
    simp only [parseCmd, hfind, h1, h2, h3, h4, Bool.or_self, Bool.false_eq_true,
      if_false, if_true]
    rfl
  refine ⟨⟨l, hl, ?_⟩, ?_⟩
  · simp only [action, hmac, Bool.false_eq_true, if_false, hpol, hl, if_true]
  · intro fb hmem hid l2 hl2
    exact pollScp_mem cfg cmds registry myId fb l2 hmem hid hl2

/-- Claim C7 (counterexample): with one feedback subscription registered
(the macro-recording feedback, whose type matches no Command
Descriptor), recalling a scene sends only the `ssrecall_ex` line — no
`get` line is sent for that registered subscription, so a `get` is not
sent for every currently registered feedback subscription. -/
theorem C7_counterexample :
    action cfgCLQL [sceneCmd] [fbMacro] "me" "scp_1000"
        (fun k => if k == "X" then .num 5 else JSVal.undef) true
      = ["ssrecall_ex MIXER:Lib/Scene 5"]
    ∧ pollScp cfgCLQL [sceneCmd] [fbMacro] "me" = [] := by
  decide

/-- Claim C7 witness: with a fader feedback registered, the scene recall
sends the poll fan-out followed by the recall line, and the registered
subscription's `get` line is in the fan-out. -/
theorem C7_witness :
    (∃ l, (parseCmd cfgCLQL [sceneCmd, cmd12] "set" (some "scp_1000")
        (some (fun k => if k == "X" then .num 5 else JSVal.undef))).line = some l
      ∧ action cfgCLQL [sceneCmd, cmd12] [fbInt] "me" "scp_1000"
          (fun k => if k == "X" then .num 5 else JSVal.undef) true
          = pollScp cfgCLQL [sceneCmd, cmd12] [fbInt] "me" ++ [l])
    ∧ (∀ fb ∈ [fbInt], ("me" == fb.instance_id) = true →
        ∀ l, (parseCmd cfgCLQL [sceneCmd, cmd12] "get" (some fb.ftype)
            (some fb.options)).line = some l →
          l ∈ pollScp cfgCLQL [sceneCmd, cmd12] [fbInt] "me") :=
  C7_scene_recall_repolls cfgCLQL [sceneCmd, cmd12] [fbInt] "me" "scp_1000"
    (fun k => if k == "X" then .num 5 else JSVal.undef) sceneCmd (by rfl) (by decide)
    (by decide)

/-- Reassociation of the encoded `set` line into its printed form. -/
theorem set_line_eq (addr : String) :
    "set" ++ " " ++ addr ++ " " ++ "0" ++ " " ++ "0" ++ " " ++ "1"
      = "set " ++ addr ++ " 0 0 1" := by
  apply strExt
  have e1 : ("set" : String).data = ['s', 'e', 't'] := rfl
  have e2 : (" " : String).data = [' '] := rfl
  have e3 : ("0" : String).data = ['0'] := rfl
  have e4 : ("1" : String).data = ['1'] := rfl
  have e5 : ("set " : String).data = ['s', 'e', 't', ' '] := rfl
  have e6 : (" 0 0 1" : String).data = [' ', '0', ' ', '0', ' ', '1'] := rfl
  simp only [data_append, e1, e2, e3, e4, e5, e6, List.append_assoc, List.cons_append,
    List.nil_append]

/-- Trimming the encoded `set` line is the identity: it starts with `s`
and ends with the wire value `1`. -/
theorem trim_set_line (addr : String) :
    jsTrim ("set " ++ addr ++ " 0 0 1") = "set " ++ addr ++ " 0 0 1" := by
  have e5 : ("set " : String).data = ['s', 'e', 't', ' '] := rfl
  have e6 : (" 0 0 1" : String).data = [' ', '0', ' ', '0', ' ', '1'] := rfl
  have hd : ("set " ++ addr ++ " 0 0 1").data
      = 's' :: ((['e', 't', ' '] ++ addr.data ++ [' ', '0', ' ', '0', ' ']) ++ ['1']) := by
    simp only [data_append, e5, e6, List.append_assoc, List.cons_append, List.nil_append]
  unfold jsTrim
  rw [hd, trimLeftL_cons _ _ (by decide)]
  rw [show 's' :: ((['e', 't', ' '] ++ addr.data ++ [' ', '0', ' ', '0', ' ']) ++ ['1'])
      = ('s' :: (['e', 't', ' '] ++ addr.data ++ [' ', '0', ' ', '0', ' '])) ++ ['1']
      from rfl]
  rw [trimRightL_concat _ _ (by decide)]
  rw [show ('s' :: (['e', 't', ' '] ++ addr.data ++ [' ', '0', ' ', '0', ' '])) ++ ['1']
      = ("set " ++ addr ++ " 0 0 1").data from hd.symm]

/-- Claim C8: boolean coercion for `integer` descriptors with `Max = 1`.
Encoding a `set` invocation with `Val = true` produces the wire value
`1` (the whole line is `set <address> 0 0 1` at the default
coordinates), and a cached wire value `"0"` compared against a feedback
subscription whose expected `Val` is `false` evaluates as equal: the
feedback returns the matched state. -/
theorem C8_boolean_coercion (cfg : Config) (cmds : List ScpObj) (actionId : String)
    (cmd : ScpObj) (addr : String)
    (hfind : findScpCommand cmds actionId = some cmd)
    (hty : cmd "Type" = .str "integer")
    (_hmax : cmd "Max" = .str "1")
    (haddr : cmd "Address" = .str addr)
    (cfg2 : Config) (names : ScpNames) (cmds2 : List ScpObj)
    (nameCommands colorCommands : List String) (ds : DataStore) (macroRec : Bool)
    (ftype : String) (options2 : Options) (bank : Bank) (cmd2 : ScpObj) (x2 : Int)
    (m1 : Store1) (m2 : Store2)
    (hfind2 : findScpCommand cmds2 ftype = some cmd2)
    (hty2 : cmd2 "Type" = .str "integer")
    (_hmax2 : cmd2 "Max" = .str "1")
    (hval2 : options2 "Val" = .boolean false)
    (hx2 : options2 "X" = .num x2) (hxpos2 : 0 < x2)
    (hy2 : options2 "Y" = JSVal.undef)
    (htext2 : options2 "text" = JSVal.undef)
    (hds2 : getA ds ftype = some m1)
    (hm12 : getA m1 (jsToString (JSVal.num x2)) = some m2)
    (hm22 : getA m2 (jsToString (JSVal.num 1)) = some (.str "0")) :
    (parseCmd cfg cmds "set" (some actionId) (some optTrue)).line
      = some ("set " ++ addr ++ " 0 0 1")
    ∧ feedback cfg2 names cmds2 nameCommands colorCommands ds macroRec ftype options2 bank
      = some { text := bank.text, color := options2 "fg", bgcolor := options2 "bg" } := by
  constructor
  · have h1 : (cmd "Type" == JSVal.str "integer") = true := by rw [hty]; rfl
    have eoptx : (if optTrue "X" = JSVal.undef then JSVal.num 1
        else if jsGtNum (optTrue "X") 0 = true then optTrue "X"
        else cfg.fields ("myCh" ++ jsToString (jsNegV (optTrue "X")))) = JSVal.num 1 := rfl
    have eopty : (if optTrue "Y" = JSVal.undef then JSVal.num 0
        else jsSubNum (optTrue "Y") 1) = JSVal.num 0 := rfl
    have eval2 : (if ("set" == "set") = true then jsAdd0 (optTrue "Val")
        else JSVal.str "") = JSVal.num 1 := rfl
    have eSub : jsSubNum (JSVal.num 1) 1 = JSVal.num 0 := rfl
    have eTS0 : jsToString (JSVal.num 0) = "0" := rfl
    have eTS1 : jsToString (JSVal.num 1) = "1" := rfl
    have eTSa : jsToString (JSVal.str addr) = addr := rfl
    simp only [parseCmd, hfind, h1, Bool.true_or, eq_self_iff_true, if_true]
    rw [eoptx, eSub, eopty, eval2, haddr, eTSa, eTS0, eTS1]
    rw [set_line_eq addr, trim_set_line addr]
  · have htyL : jsLooseEq (cmd2 "Type") (JSVal.str "integer") = true := by
      rw [hty2]; rfl
    have hvu : jsLooseEq (options2 "Val") JSVal.undef = false := by rw [hval2]; rfl
    have hgt : jsGtNum (JSVal.num x2) 0 = true := by
      simp only [jsGtNum, jsToNumberV]
      exact decide_eq_true hxpos2
    have hyu : jsLooseEq (options2 "Y") JSVal.undef = true := by rw [hy2]; rfl
    have htm : jsLooseEq (options2 "text") JSVal.undef = true := by rw [htext2]; rfl
    have hB : jsAdd0 (options2 "Val") = JSVal.num 0 := by rw [hval2]; rfl
    have hEq : jsLooseEq (JSVal.str "0") (JSVal.num 0) = true := rfl
    simp only [feedback, hfind2, hvu, Bool.false_eq_true, if_false, htyL, if_true,
      hx2, hgt, hyu, hB, hds2, hm12, hm22, Option.getD_some, hEq, htm]

/-- Claim C8 witness: the descriptor `scp_7` encodes `Val = true` to the
wire line with value `1`, and cached `"0"` matches expectation `false`. -/
theorem C8_witness :
    (parseCmd cfgCLQL [cmdBool] "set" (some "scp_7") (some optTrue)).line
      = some ("set " ++ "MIXER:Current/InCh/Fader/On" ++ " 0 0 1")
    ∧ feedback cfgCLQL trivNames [cmdBool] [] []
        [("scp_7", [("5", [("1", JSVal.str "0")])])] false "scp_7"
        (fun k => if k == "Val" then .boolean false else if k == "X" then .num 5
          else if k == "fg" then .num 7 else if k == "bg" then .num 8 else JSVal.undef)
        bankC2
      = some { text := bankC2.text, color := .num 7, bgcolor := .num 8 } :=
  C8_boolean_coercion cfgCLQL [cmdBool] "scp_7" cmdBool "MIXER:Current/InCh/Fader/On"
    (by rfl) (by decide) (by decide) (by decide)
    cfgCLQL trivNames [cmdBool] [] []
    [("scp_7", [("5", [("1", JSVal.str "0")])])] false "scp_7"
    (fun k => if k == "Val" then .boolean false else if k == "X" then .num 5
      else if k == "fg" then .num 7 else if k == "bg" then .num 8 else JSVal.undef)
    bankC2 cmdBool 5 [("5", [("1", JSVal.str "0")])] [("1", JSVal.str "0")]
    (by rfl) (by decide) (by decide) (by decide) (by decide) (by decide)
    (by decide) (by decide) (by decide) (by decide) (by decide)

end Scp
